import Mathlib

/-!
Shallow embedding of `src/client.rs` of `actix-web-opentelemetry`.

The source instruments outgoing `awc` client requests with OpenTelemetry
spans.  We model the observable effects of one tracer invocation as a list
of `Event`s (span start, header injection, delegation to the wrapped
client, attribute / status recording, span end), and the pure data
(request, URI, attributes, span name) as executable Lean structures and
functions translated from the Rust source.  External collaborators
(tracer backend, propagation codec, underlying HTTP client) are
parameters, exactly as they are narrow interfaces in the source.
-/

/-- HTTP method, mirroring `http::Method` as used by `actix_web`.
`toStr` is the token that `Display` (and `as_str`) produce. -/
inductive Method where
  | GET | POST | PUT | DELETE | HEAD | OPTIONS | CONNECT | PATCH | TRACE
deriving DecidableEq, Repr

/-- The uppercase token rendering used by `http::Method`s `Display` impl. -/
def Method.toStr : Method → String
  | .GET => "GET"
  | .POST => "POST"
  | .PUT => "PUT"
  | .DELETE => "DELETE"
  | .HEAD => "HEAD"
  | .OPTIONS => "OPTIONS"
  | .CONNECT => "CONNECT"
  | .PATCH => "PATCH"
  | .TRACE => "TRACE"

/-- Modelled from the spec: `crate::util::http_method_str` (the file
`src/util.rs` is not part of the provided sources).  Per the spec's
attribute table, `http.method` carries the "uppercase method token
(e.g. \"GET\")", i.e. the method's canonical token. -/
def http_method_str (m : Method) : String := m.toStr

/-- The components of an `http::Uri` that `client.rs` reads:
`scheme()`, `authority()`, `path()` (plus the query, which only shows up
through `to_string()`). -/
structure Uri where
  scheme : Option String
  authority : Option String
  path : String
  query : Option String
deriving DecidableEq, Repr

/-- The `Display`/`to_string()` rendering of an `http::Uri`: scheme with
a `://` separator when present, then authority when present, then path,
then `?query` when present. -/
def Uri.render (u : Uri) : String :=
  (match u.scheme with
   | some s => s ++ "://"
   | none => "") ++
  (match u.authority with
   | some a => a
   | none => "") ++
  u.path ++
  (match u.query with
   | some q => "?" ++ q
   | none => "")

/-- HTTP protocol version (`http::Version`). -/
inductive Version where
  | HTTP_09 | HTTP_10 | HTTP_11 | HTTP_2 | HTTP_3
deriving DecidableEq, Repr

/-- The `Debug` rendering of `http::Version`, which is what
`format!("{:?}", version)` produces in `trace_request`. -/
def Version.debug_fmt : Version → String
  | .HTTP_09 => "HTTP/0.9"
  | .HTTP_10 => "HTTP/1.0"
  | .HTTP_11 => "HTTP/1.1"
  | .HTTP_2 => "HTTP/2.0"
  | .HTTP_3 => "HTTP/3.0"

/-- The parts of `actix_web::client::ClientRequest` read or mutated by
`client.rs`: method, URI, version, peer address (already in its textual
`to_string()` form), and the header map (names stored in their
normalized lowercase form, as `http::HeaderName` does). -/
structure ClientRequest where
  method : Method
  uri : Uri
  version : Version
  peer_addr : Option String
  headers : List (String × String)
deriving DecidableEq, Repr

def ClientRequest.get_method (r : ClientRequest) : Method := r.method

def ClientRequest.get_uri (r : ClientRequest) : Uri := r.uri

def ClientRequest.get_version (r : ClientRequest) : Version := r.version

def ClientRequest.get_peer_addr (r : ClientRequest) : Option String := r.peer_addr

/-- A typed attribute value (`opentelemetry::Value`), only the two
constructors `client.rs` uses. -/
inductive Value where
  | string (s : String)
  | i64 (i : Int)
deriving DecidableEq, Repr

/-- An `opentelemetry::KeyValue` pair. -/
structure KeyValue where
  key : String
  value : Value
deriving DecidableEq, Repr

/-- An `opentelemetry::Key`; `string`/`i64` build `KeyValue`s as in the
Rust API. -/
structure Key where
  name : String
deriving DecidableEq, Repr

def Key.string (k : Key) (s : String) : KeyValue := ⟨k.name, Value.string s⟩

def Key.i64 (k : Key) (i : Int) : KeyValue := ⟨k.name, Value.i64 i⟩

/-- `opentelemetry_semantic_conventions::trace::HTTP_METHOD`. -/
def HTTP_METHOD : Key := ⟨"http.method"⟩

/-- `opentelemetry_semantic_conventions::trace::HTTP_URL`. -/
def HTTP_URL : Key := ⟨"http.url"⟩

/-- `opentelemetry_semantic_conventions::trace::HTTP_FLAVOR`. -/
def HTTP_FLAVOR : Key := ⟨"http.flavor"⟩

/-- `opentelemetry_semantic_conventions::trace::NET_PEER_IP`. -/
def NET_PEER_IP : Key := ⟨"net.peer.ip"⟩

/-- `opentelemetry_semantic_conventions::trace::HTTP_STATUS_CODE`. -/
def HTTP_STATUS_CODE : Key := ⟨"http.status_code"⟩

/-- `opentelemetry::trace::SpanKind`. -/
inductive SpanKind where
  | client | server | producer | consumer | internal
deriving DecidableEq, Repr

/-- `opentelemetry::trace::StatusCode` (span status). -/
inductive StatusCode where
  | unset | ok | error
deriving DecidableEq, Repr

/-- The data a span is built with in `trace_request`:
`span_builder(name).with_kind(..).with_attributes(..)`. -/
structure Span where
  name : String
  kind : SpanKind
  attributes : List KeyValue
deriving DecidableEq, Repr

/-- `opentelemetry::Context`: for this component only the active span
matters (`cx.span()` / `cx.with_span(span)` are the only operations
used). -/
structure Context where
  span : Option Span
deriving DecidableEq, Repr

/-- `TraceContextExt::with_span`. -/
def Context.with_span (cx : Context) (s : Span) : Context := { cx with span := some s }

/-- One observable side effect of a tracer invocation, in program order:
span start, propagator injection (recording the context injected and
the resulting request headers), delegation of the send to the wrapped
client (recording the headers the request carries at that moment),
span attribute append, span status set, span end. -/
inductive Event where
  | start (span : Span)
  | inject (cx : Context) (headers : List (String × String))
  | send (headers : List (String × String))
  | setAttribute (kv : KeyValue)
  | setStatus (code : StatusCode) (description : String)
  | endSpan
deriving DecidableEq, Repr

/-- The parts of an `awc` `ClientResponse` that `record_response` reads
(the numeric status), plus an opaque payload so that "returned
unmodified" is meaningful. -/
structure ClientResponse where
  status : Nat
  payload : String
deriving DecidableEq, Repr

/-- The outcome of the wrapped client's send future: it resolves `Ok`,
resolves `Err`, or the surrounding future is dropped (cancelled) while
suspended at the `.await`, in which case the `inspect_ok`/`inspect_err`
continuations never run. -/
inductive SendOutcome (ε : Type) where
  | ok (res : ClientResponse)
  | err (e : ε)
  | cancelled
deriving DecidableEq, Repr

/-- `struct InstrumentedClientRequest { cx, request }`. -/
structure InstrumentedClientRequest where
  cx : Context
  request : ClientRequest
deriving DecidableEq, Repr

/-- `ClientExt::trace_request_with_context` as implemented for
`ClientRequest` (line 86): wrap the request with the given context. -/
def ClientRequest.trace_request_with_context (request : ClientRequest) (cx : Context) :
    InstrumentedClientRequest :=
  { cx := cx, request := request }

/-- `ClientExt::trace_request` (line 54): wrap using the ambient
`Context::current()`, which we pass explicitly. -/
def ClientRequest.trace_request (request : ClientRequest) (current : Context) :
    InstrumentedClientRequest :=
  request.trace_request_with_context current

/-- The attribute vector built at lines 146-154 of `trace_request`:
method, url, flavor (the `Debug` form of the version with the `HTTP/`
prefix replaced away), then `net.peer.ip` pushed only when
`get_peer_addr()` is `Some`. -/
def client_attributes (request : ClientRequest) : List KeyValue :=
  let attributes := [
    HTTP_METHOD.string (http_method_str request.get_method),
    HTTP_URL.string request.get_uri.render,
    HTTP_FLAVOR.string ((request.get_version.debug_fmt).replace "HTTP/" "")]
  match request.get_peer_addr with
  | some peer_addr => attributes ++ [NET_PEER_IP.string peer_addr]
  | none => attributes

/-- The span name format string at lines 157-171:
`"{} {}{}{}"` applied to the method, the scheme mapped to `"{}://"`
(empty when absent), the authority's string (empty when absent), and
the path. -/
def span_name (request : ClientRequest) : String :=
  request.get_method.toStr ++ " " ++
    ((request.get_uri.scheme.map (fun s => s ++ "://")).getD "") ++
    ((request.get_uri.authority.map (fun s => s)).getD "") ++
    request.get_uri.path

/-- The span started at lines 156-174: the computed name, kind
`Client`, and the computed attributes. -/
def built_span (request : ClientRequest) : Span :=
  { name := span_name request, kind := SpanKind.client, attributes := client_attributes request }

/-- Line 175: `let cx = self.cx.with_span(span)`. -/
def child_context (icr : InstrumentedClientRequest) : Context :=
  icr.cx.with_span (built_span icr.request)

/-- A propagator (`global::get_text_map_propagator` + `inject_context`)
is an external codec; through the carrier it can only rewrite the
request's header list, so we model it as a function from the injected
context and the current headers to the new headers. -/
def injected_request (icr : InstrumentedClientRequest)
    (propagator : Context → List (String × String) → List (String × String)) :
    ClientRequest :=
  { icr.request with headers := propagator (child_context icr) icr.request.headers }

/-- `record_response` (lines 188-192): append the numeric status code
as `http.status_code`, then end the span. -/
def record_response (response : ClientResponse) : List Event :=
  [Event.setAttribute (HTTP_STATUS_CODE.i64 (Int.ofNat response.status)), Event.endSpan]

/-- `record_err` (lines 194-198): set the span status to `Error` with
the `Debug` rendering of the error, then end the span.  `dbg` is the
`fmt::Debug` instance of the error type. -/
def record_err {ε : Type} (dbg : ε → String) (e : ε) : List Event :=
  [Event.setStatus StatusCode.error (dbg e), Event.endSpan]

/-- The events of `trace_request` that happen before the wrapped send
resolves: span start, injection, delegation to the client. -/
def pre_events (icr : InstrumentedClientRequest)
    (propagator : Context → List (String × String) → List (String × String)) :
    List Event :=
  [Event.start (built_span icr.request),
   Event.inject (child_context icr) (injected_request icr propagator).headers,
   Event.send (injected_request icr propagator).headers]

/-- `InstrumentedClientRequest::trace_request` (lines 140-185): build
attributes and span, derive the child context, inject it into the
request's headers, hand the mutated request to the body-attachment
closure `f`, and record the outcome via `inspect_ok`/`inspect_err`
before returning it unchanged.  A `cancelled` outcome models the
future being dropped at the `.await`: the `inspect_*` continuations
never run, so only the pre-send events occur. -/
def InstrumentedClientRequest.trace_request {ε : Type}
    (icr : InstrumentedClientRequest)
    (propagator : Context → List (String × String) → List (String × String))
    (dbg : ε → String)
    (f : ClientRequest → SendOutcome ε) : SendOutcome ε × List Event :=
  match f (injected_request icr propagator) with
  | SendOutcome.ok res => (SendOutcome.ok res, pre_events icr propagator ++ record_response res)
  | SendOutcome.err e => (SendOutcome.err e, pre_events icr propagator ++ record_err dbg e)
  | SendOutcome.cancelled => (SendOutcome.cancelled, pre_events icr propagator)

/-- The wrapped `awc` client: the five send operations of a
`ClientRequest`, each taking its body in its own form.  `ε` is the
error type, `β`/`φ`/`ι`/`σ` the opaque body, form, json and stream
types. -/
structure AwcClient (ε β φ ι σ : Type) where
  send : ClientRequest → SendOutcome ε
  send_body : ClientRequest → β → SendOutcome ε
  send_form : ClientRequest → φ → SendOutcome ε
  send_json : ClientRequest → ι → SendOutcome ε
  send_stream : ClientRequest → σ → SendOutcome ε

/-- `InstrumentedClientRequest::send` (line 97):
`self.trace_request(|request| request.send()).await`. -/
def InstrumentedClientRequest.send {ε β φ ι σ : Type}
    (icr : InstrumentedClientRequest) (client : AwcClient ε β φ ι σ)
    (propagator : Context → List (String × String) → List (String × String))
    (dbg : ε → String) : SendOutcome ε × List Event :=
  icr.trace_request propagator dbg (fun request => client.send request)

/-- `InstrumentedClientRequest::send_body` (line 104). -/
def InstrumentedClientRequest.send_body {ε β φ ι σ : Type}
    (icr : InstrumentedClientRequest) (client : AwcClient ε β φ ι σ)
    (propagator : Context → List (String × String) → List (String × String))
    (dbg : ε → String) (body : β) : SendOutcome ε × List Event :=
  icr.trace_request propagator dbg (fun request => client.send_body request body)

/-- `InstrumentedClientRequest::send_form` (line 115). -/
def InstrumentedClientRequest.send_form {ε β φ ι σ : Type}
    (icr : InstrumentedClientRequest) (client : AwcClient ε β φ ι σ)
    (propagator : Context → List (String × String) → List (String × String))
    (dbg : ε → String) (value : φ) : SendOutcome ε × List Event :=
  icr.trace_request propagator dbg (fun request => client.send_form request value)

/-- `InstrumentedClientRequest::send_json` (line 123). -/
def InstrumentedClientRequest.send_json {ε β φ ι σ : Type}
    (icr : InstrumentedClientRequest) (client : AwcClient ε β φ ι σ)
    (propagator : Context → List (String × String) → List (String × String))
    (dbg : ε → String) (value : ι) : SendOutcome ε × List Event :=
  icr.trace_request propagator dbg (fun request => client.send_json request value)

/-- `InstrumentedClientRequest::send_stream` (line 131). -/
def InstrumentedClientRequest.send_stream {ε β φ ι σ : Type}
    (icr : InstrumentedClientRequest) (client : AwcClient ε β φ ι σ)
    (propagator : Context → List (String × String) → List (String × String))
    (dbg : ε → String) (stream : σ) : SendOutcome ε × List Event :=
  icr.trace_request propagator dbg (fun request => client.send_stream request stream)

/-- The symbol characters `http::HeaderName` accepts besides letters
and digits: `! # $ % & ' * + - . ^ _ \x60 | ~` (39 is the apostrophe,
96 the grave accent). -/
def header_name_symbols : List Char :=
  ['!', '#', '$', '%', '&', '*', '+', '-', '.', '^', '_', '|', '~',
   Char.ofNat 39, Char.ofNat 96]

/-- Whether a character is valid in an HTTP header field name
(`http::HeaderName`): ASCII letters (uppercase accepted and
normalized), digits, or one of the token symbols. -/
def valid_header_name_char (c : Char) : Bool :=
  c.isLower || c.isUpper || c.isDigit || header_name_symbols.contains c

/-- `HeaderName::from_str` (used at line 212): succeeds on a nonempty
token of valid characters and yields the lowercase-normalized name,
fails otherwise. -/
def HeaderName.from_str (s : String) : Option String :=
  if s.data ≠ [] ∧ s.data.all valid_header_name_char then
    some ⟨s.data.map Char.toLower⟩
  else
    none

/-- Whether a character is valid in an HTTP header field value
(`http::HeaderValue::from_str`): horizontal tab, or any character that
is not an ASCII control character (code ≥ 32 and ≠ 127). -/
def valid_header_value_char (c : Char) : Bool :=
  c.toNat == 9 || (32 ≤ c.toNat && c.toNat ≠ 127)

/-- `HeaderValue::from_str` (used at line 213): succeeds (returning the
value unchanged) when every character is valid, fails otherwise. -/
def HeaderValue.from_str (s : String) : Option String :=
  if s.data.all valid_header_value_char then some s else none

/-- `HeaderMap::insert` (line 214): replaces any existing values for
the name with the single new value. -/
def HeaderMap.insert (headers : List (String × String)) (name value : String) :
    List (String × String) :=
  headers.filter (fun p => p.1 ≠ name) ++ [(name, value)]

/-- `Injector for ActixClientCarrier` (lines 210-216): parse the key as
a header name and the value as a header value, `expect`-ing both (a
parse failure is a panic, modelled as `Except.error` with the panic
message), then insert into the request's header map. -/
def ActixClientCarrier.set (headers : List (String × String)) (key : String) (value : String) :
    Except String (List (String × String)) :=
  match HeaderName.from_str key with
  | none => Except.error "Must be header name"
  | some header_name =>
    match HeaderValue.from_str value with
    | none => Except.error "Must be a header value"
    | some header_value => Except.ok (HeaderMap.insert headers header_name header_value)

/-- Event classifiers used to state the lifecycle invariants. -/
def is_start : Event → Bool
  | Event.start _ => true
  | _ => false

def is_end : Event → Bool
  | Event.endSpan => true
  | _ => false

/-- A success record: the `http.status_code` attribute append performed
by `record_response`. -/
def is_success_record : Event → Bool
  | Event.setAttribute kv => kv.key == HTTP_STATUS_CODE.name
  | _ => false

/-- An error record: the status set performed by `record_err`. -/
def is_error_record : Event → Bool
  | Event.setStatus _ _ => true
  | _ => false

/-- Whether `pat` is a prefix of `l` (character lists). -/
def starts_seq : List Char → List Char → Bool
  | _, [] => true
  | [], _ :: _ => false
  | c :: cs, d :: ds => c == d && starts_seq cs ds

/-- Whether `pat` occurs contiguously anywhere in `l`. -/
def contains_seq : List Char → List Char → Bool
  | [], pat => starts_seq [] pat
  | c :: cs, pat => starts_seq (c :: cs) pat || contains_seq cs pat

theorem countP_pre_events_start (icr : InstrumentedClientRequest)
    (propagator : Context → List (String × String) → List (String × String)) :
    (pre_events icr propagator).countP is_start = 1 := by
  simp [pre_events, List.countP_cons, is_start]

theorem countP_pre_events_end (icr : InstrumentedClientRequest)
    (propagator : Context → List (String × String) → List (String × String)) :
    (pre_events icr propagator).countP is_end = 0 := by
  simp [pre_events, List.countP_cons, is_end]

theorem countP_pre_events_success (icr : InstrumentedClientRequest)
    (propagator : Context → List (String × String) → List (String × String)) :
    (pre_events icr propagator).countP is_success_record = 0 := by
  simp [pre_events, List.countP_cons, is_success_record]

theorem countP_pre_events_error (icr : InstrumentedClientRequest)
    (propagator : Context → List (String × String) → List (String × String)) :
    (pre_events icr propagator).countP is_error_record = 0 := by
  simp [pre_events, List.countP_cons, is_error_record]

/-- Claim C10: the no-argument `trace_request` equals
`trace_request_with_context` applied to the ambient current context;
both store that context and the request unmodified. -/
theorem C10_trace_request_refines_with_context (r : ClientRequest) (current : Context) :
    r.trace_request current = r.trace_request_with_context current ∧
    (r.trace_request current).request = r ∧
    (r.trace_request current).cx = current ∧
    (r.trace_request_with_context current).request = r ∧
    (r.trace_request_with_context current).cx = current :=
  ⟨rfl, rfl, rfl, rfl, rfl⟩

/-- Claim C3: the span name is `"{METHOD} {SCHEME}://{AUTHORITY}{PATH}"`
where the scheme segment together with `"://"` appears only when the URI
has a scheme and the authority segment only when it has an authority;
`GET http://localhost:8080/items` on the first concrete example, and
`GET /items` with no `"://"` fragment on the relative one. -/
theorem C3_span_name_format :
    (∀ r : ClientRequest, span_name r =
      r.get_method.toStr ++ " " ++
        (Option.elim r.get_uri.scheme "" (fun s => s ++ "://")) ++
        (Option.getD r.get_uri.authority "") ++
        r.get_uri.path) ∧
    span_name { method := Method.GET,
                uri := { scheme := some "http", authority := some "localhost:8080",
                         path := "/items", query := none },
                version := Version.HTTP_11, peer_addr := none, headers := [] } =
      "GET http://localhost:8080/items" ∧
    span_name { method := Method.GET,
                uri := { scheme := none, authority := none, path := "/items", query := none },
                version := Version.HTTP_11, peer_addr := none, headers := [] } =
      "GET /items" ∧
    contains_seq (span_name { method := Method.GET,
                              uri := { scheme := none, authority := none,
                                       path := "/items", query := none },
                              version := Version.HTTP_11, peer_addr := none,
                              headers := [] }).data ("://".data) = false := by
  refine ⟨?_, by decide, by decide, by decide⟩
  intro r
  rcases r with ⟨m, ⟨sch, auth, p, q⟩, v, pa, hs⟩
  cases sch <;> cases auth <;>
    simp [span_name, ClientRequest.get_method, ClientRequest.get_uri]

/-- Claim C4: the initial attribute list is, in order, `http.method`
(uppercase method token), `http.url` (the URI rendered as a string),
`http.flavor` (the version with the `HTTP/` prefix stripped), then
`net.peer.ip` appended exactly when the peer address is known. -/
theorem C4_attribute_list (r : ClientRequest) :
    client_attributes r =
      [HTTP_METHOD.string (http_method_str r.get_method),
       HTTP_URL.string r.get_uri.render,
       HTTP_FLAVOR.string ((r.get_version.debug_fmt).replace "HTTP/" "")] ++
        (Option.elim r.get_peer_addr [] (fun p => [NET_PEER_IP.string p])) ∧
    ((∃ v, (⟨NET_PEER_IP.name, v⟩ : KeyValue) ∈ client_attributes r) ↔
      r.get_peer_addr.isSome) := by
  rcases r with ⟨m, u, v, pa, hs⟩
  cases pa <;>
    simp [client_attributes, ClientRequest.get_peer_addr, ClientRequest.get_method,
      ClientRequest.get_uri, ClientRequest.get_version, Key.string,
      HTTP_METHOD, HTTP_URL, HTTP_FLAVOR, NET_PEER_IP]

/-- Claim C1: per tracer invocation whose wrapped send resolves (with a
success or an error), exactly one span start and exactly one span end
occur, and exactly one of the success record or the error record is
applied, immediately before the end and never both. -/
theorem C1_one_span_one_end_one_record {ε : Type} (icr : InstrumentedClientRequest)
    (propagator : Context → List (String × String) → List (String × String))
    (dbg : ε → String) (f : ClientRequest → SendOutcome ε)
    (h : f (injected_request icr propagator) ≠ SendOutcome.cancelled) :
    (icr.trace_request propagator dbg f).2.countP is_start = 1 ∧
    (icr.trace_request propagator dbg f).2.countP is_end = 1 ∧
    (icr.trace_request propagator dbg f).2.countP is_success_record +
      (icr.trace_request propagator dbg f).2.countP is_error_record = 1 ∧
    ∃ pre rec, (icr.trace_request propagator dbg f).2 = pre ++ [rec, Event.endSpan] ∧
      (is_success_record rec = true ∨ is_error_record rec = true) ∧
      pre.countP is_success_record = 0 ∧ pre.countP is_error_record = 0 ∧
      pre.countP is_end = 0 := by
  rcases hout : f (injected_request icr propagator) with res | e | _
  · refine ⟨?_, ?_, ?_, pre_events icr propagator,
      Event.setAttribute (HTTP_STATUS_CODE.i64 (Int.ofNat res.status)), ?_, ?_, ?_, ?_, ?_⟩ <;>
      simp [InstrumentedClientRequest.trace_request, hout, record_response,
        List.countP_append, List.countP_cons, countP_pre_events_start,
        countP_pre_events_end, countP_pre_events_success, countP_pre_events_error,
        is_start, is_end, is_success_record, is_error_record, Key.i64, HTTP_STATUS_CODE]
  · refine ⟨?_, ?_, ?_, pre_events icr propagator,
      Event.setStatus StatusCode.error (dbg e), ?_, ?_, ?_, ?_, ?_⟩ <;>
      simp [InstrumentedClientRequest.trace_request, hout, record_err,
        List.countP_append, List.countP_cons, countP_pre_events_start,
        countP_pre_events_end, countP_pre_events_success, countP_pre_events_error,
        is_start, is_end, is_success_record, is_error_record]
  · exact absurd hout h

/-- Claim C2: the injection of the child context into the request's
headers happens strictly before the delegation to the wrapped client's
send, and the request handed to the send carries exactly the injected
headers. -/
theorem C2_inject_before_send {ε : Type} (icr : InstrumentedClientRequest)
    (propagator : Context → List (String × String) → List (String × String))
    (dbg : ε → String) (f : ClientRequest → SendOutcome ε) :
    ∃ rest, (icr.trace_request propagator dbg f).2 =
      Event.start (built_span icr.request) ::
      Event.inject (child_context icr) (injected_request icr propagator).headers ::
      Event.send (injected_request icr propagator).headers :: rest := by
  rcases hout : f (injected_request icr propagator) with res | e | _
  · exact ⟨record_response res, by
      simp [InstrumentedClientRequest.trace_request, hout, pre_events]⟩
  · exact ⟨record_err dbg e, by
      simp [InstrumentedClientRequest.trace_request, hout, pre_events]⟩
  · exact ⟨[], by simp [InstrumentedClientRequest.trace_request, hout, pre_events]⟩

/-- Claim C5: when the wrapped send resolves successfully, the span
gains `http.status_code` equal to the response's numeric status, the
span is then ended with no error status set, and the response is
returned unmodified. -/
theorem C5_success_recording {ε : Type} (icr : InstrumentedClientRequest)
    (propagator : Context → List (String × String) → List (String × String))
    (dbg : ε → String) (f : ClientRequest → SendOutcome ε) (res : ClientResponse)
    (h : f (injected_request icr propagator) = SendOutcome.ok res) :
    (icr.trace_request propagator dbg f).1 = SendOutcome.ok res ∧
    (icr.trace_request propagator dbg f).2 =
      pre_events icr propagator ++
        [Event.setAttribute (HTTP_STATUS_CODE.i64 (Int.ofNat res.status)), Event.endSpan] ∧
    (icr.trace_request propagator dbg f).2.countP is_error_record = 0 := by
  refine ⟨?_, ?_, ?_⟩ <;>
    simp [InstrumentedClientRequest.trace_request, h, record_response,
      List.countP_append, List.countP_cons, countP_pre_events_error,
      is_error_record]

/-- Claim C6: when the wrapped send resolves with an error, the span's
status is set to `error` with the error's textual (`Debug`) rendering,
the span is then ended, and the very same error value is returned
unchanged. -/
theorem C6_error_recording {ε : Type} (icr : InstrumentedClientRequest)
    (propagator : Context → List (String × String) → List (String × String))
    (dbg : ε → String) (f : ClientRequest → SendOutcome ε) (e : ε)
    (h : f (injected_request icr propagator) = SendOutcome.err e) :
    (icr.trace_request propagator dbg f).1 = SendOutcome.err e ∧
    (icr.trace_request propagator dbg f).2 =
      pre_events icr propagator ++
        [Event.setStatus StatusCode.error (dbg e), Event.endSpan] := by
  refine ⟨?_, ?_⟩ <;>
    simp [InstrumentedClientRequest.trace_request, h, record_err]

/-- Claim C9: when the wrapped send is abandoned (cancelled) at the
suspension point, this component never ends the span and neither the
success record nor the error record runs. -/
theorem C9_cancellation_never_ends {ε : Type} (icr : InstrumentedClientRequest)
    (propagator : Context → List (String × String) → List (String × String))
    (dbg : ε → String) (f : ClientRequest → SendOutcome ε)
    (h : f (injected_request icr propagator) = SendOutcome.cancelled) :
    (icr.trace_request propagator dbg f).2.countP is_end = 0 ∧
    (icr.trace_request propagator dbg f).2.countP is_success_record = 0 ∧
    (icr.trace_request propagator dbg f).2.countP is_error_record = 0 := by
  refine ⟨?_, ?_, ?_⟩ <;>
    simp [InstrumentedClientRequest.trace_request, h, countP_pre_events_end,
      countP_pre_events_success, countP_pre_events_error]

/-- Claim C8: all five public send variants are the shared lifecycle
`trace_request` applied to a variant-specific body-attachment closure,
and the lifecycle's result and event trace depend only on what the
attached client call returns on the injected request — so two variants
whose client calls agree there behave identically. -/
theorem C8_variants_shared_lifecycle {ε β φ ι σ : Type}
    (icr : InstrumentedClientRequest) (client : AwcClient ε β φ ι σ)
    (propagator : Context → List (String × String) → List (String × String))
    (dbg : ε → String) (body : β) (form : φ) (json : ι) (stream : σ)
    (f g : ClientRequest → SendOutcome ε)
    (h : f (injected_request icr propagator) = g (injected_request icr propagator)) :
    icr.send client propagator dbg =
      icr.trace_request propagator dbg (fun request => client.send request) ∧
    icr.send_body client propagator dbg body =
      icr.trace_request propagator dbg (fun request => client.send_body request body) ∧
    icr.send_form client propagator dbg form =
      icr.trace_request propagator dbg (fun request => client.send_form request form) ∧
    icr.send_json client propagator dbg json =
      icr.trace_request propagator dbg (fun request => client.send_json request json) ∧
    icr.send_stream client propagator dbg stream =
      icr.trace_request propagator dbg (fun request => client.send_stream request stream) ∧
    icr.trace_request propagator dbg f = icr.trace_request propagator dbg g := by
  refine ⟨rfl, rfl, rfl, rfl, rfl, ?_⟩
  unfold InstrumentedClientRequest.trace_request
  rw [h]

/-- Claim C7: the carrier's `set` writes the header when both the key
parses as a header name and the value parses as a header value,
overwriting any existing header with that name; when either is invalid
it fails loudly (an `expect` panic) instead of silently dropping. -/
theorem C7_carrier_set (headers : List (String × String)) (key value : String) :
    (∀ hn hv, HeaderName.from_str key = some hn → HeaderValue.from_str value = some hv →
      hv = value ∧
      ActixClientCarrier.set headers key value =
        Except.ok (HeaderMap.insert headers hn value) ∧
      (hn, value) ∈ HeaderMap.insert headers hn value ∧
      ∀ v, (hn, v) ∈ HeaderMap.insert headers hn value → v = value) ∧
    (HeaderName.from_str key = none ∨ HeaderValue.from_str value = none →
      ∃ msg, ActixClientCarrier.set headers key value = Except.error msg) := by
  constructor
  · intro hn hv h1 h2
    have hval : hv = value := by
      unfold HeaderValue.from_str at h2
      split at h2
      · exact (Option.some.injEq _ _ ▸ h2).symm
      · exact absurd h2 (by simp)
    subst hval
    refine ⟨rfl, ?_, ?_, ?_⟩
    · simp [ActixClientCarrier.set, h1, h2]
    · simp [HeaderMap.insert]
    · intro v hv'
      simp only [HeaderMap.insert, List.mem_append, List.mem_filter,
        List.mem_singleton] at hv'
      rcases hv' with ⟨_, hne⟩ | heq
      · simp at hne
      · exact (Prod.mk.injEq _ _ _ _ ▸ heq).2
  · intro h
    rcases h with h | h
    · exact ⟨"Must be header name", by simp [ActixClientCarrier.set, h]⟩
    · cases hk : HeaderName.from_str key with
      | none => exact ⟨"Must be header name", by simp [ActixClientCarrier.set, hk]⟩
      | some hn =>
        exact ⟨"Must be a header value", by simp [ActixClientCarrier.set, hk, h]⟩

/-- A concrete request used to instantiate the lifecycle theorems. -/
def sample_request : ClientRequest :=
  { method := Method.GET,
    uri := { scheme := some "http", authority := some "localhost:8080",
             path := "/items", query := none },
    version := Version.HTTP_11, peer_addr := none, headers := [] }

/-- A concrete instrumented request (empty ambient context). -/
def sample_icr : InstrumentedClientRequest :=
  { cx := { span := none }, request := sample_request }

/-- A propagator that leaves the headers unchanged. -/
def id_propagator : Context → List (String × String) → List (String × String) :=
  fun _ hs => hs

/-- A concrete response. -/
def sample_response : ClientResponse := { status := 404, payload := "not found" }

/-- A wrapped send that resolves successfully. -/
def ok_send : ClientRequest → SendOutcome String := fun _ => SendOutcome.ok sample_response

/-- A wrapped send that resolves with an error. -/
def err_send : ClientRequest → SendOutcome String :=
  fun _ => SendOutcome.err "connection refused"

/-- A wrapped send abandoned at the suspension point. -/
def dropped_send : ClientRequest → SendOutcome String := fun _ => SendOutcome.cancelled

/-- A concrete wrapped client whose five operations all succeed. -/
def sample_client : AwcClient String Unit Unit Unit Unit :=
  { send := fun _ => SendOutcome.ok sample_response,
    send_body := fun _ _ => SendOutcome.ok sample_response,
    send_form := fun _ _ => SendOutcome.ok sample_response,
    send_json := fun _ _ => SendOutcome.ok sample_response,
    send_stream := fun _ _ => SendOutcome.ok sample_response }

/-- Witness for claim C1 at a concrete successful invocation. -/
theorem C1_one_span_one_end_one_record_witness :
    ok_send (injected_request sample_icr id_propagator) ≠ SendOutcome.cancelled ∧
    ((sample_icr.trace_request id_propagator id ok_send).2.countP is_start = 1 ∧
     (sample_icr.trace_request id_propagator id ok_send).2.countP is_end = 1 ∧
     (sample_icr.trace_request id_propagator id ok_send).2.countP is_success_record +
       (sample_icr.trace_request id_propagator id ok_send).2.countP is_error_record = 1 ∧
     ∃ pre rec, (sample_icr.trace_request id_propagator id ok_send).2 =
         pre ++ [rec, Event.endSpan] ∧
       (is_success_record rec = true ∨ is_error_record rec = true) ∧
       pre.countP is_success_record = 0 ∧ pre.countP is_error_record = 0 ∧
       pre.countP is_end = 0) :=
  ⟨by simp [ok_send],
   C1_one_span_one_end_one_record sample_icr id_propagator id ok_send (by simp [ok_send])⟩

/-- Witness for claim C5 at a concrete 404 response. -/
theorem C5_success_recording_witness :
    ok_send (injected_request sample_icr id_propagator) = SendOutcome.ok sample_response ∧
    ((sample_icr.trace_request id_propagator id ok_send).1 = SendOutcome.ok sample_response ∧
     (sample_icr.trace_request id_propagator id ok_send).2 =
       pre_events sample_icr id_propagator ++
         [Event.setAttribute (HTTP_STATUS_CODE.i64 (Int.ofNat sample_response.status)),
          Event.endSpan] ∧
     (sample_icr.trace_request id_propagator id ok_send).2.countP is_error_record = 0) :=
  ⟨rfl, C5_success_recording sample_icr id_propagator id ok_send sample_response rfl⟩

/-- Witness for claim C6 at a concrete connection-refused error. -/
theorem C6_error_recording_witness :
    err_send (injected_request sample_icr id_propagator) =
      SendOutcome.err "connection refused" ∧
    ((sample_icr.trace_request id_propagator id err_send).1 =
       SendOutcome.err "connection refused" ∧
     (sample_icr.trace_request id_propagator id err_send).2 =
       pre_events sample_icr id_propagator ++
         [Event.setStatus StatusCode.error (id "connection refused"), Event.endSpan]) :=
  ⟨rfl, C6_error_recording sample_icr id_propagator id err_send "connection refused" rfl⟩

/-- Witness for claim C9 at a concrete abandoned send. -/
theorem C9_cancellation_never_ends_witness :
    dropped_send (injected_request sample_icr id_propagator) = SendOutcome.cancelled ∧
    ((sample_icr.trace_request id_propagator id dropped_send).2.countP is_end = 0 ∧
     (sample_icr.trace_request id_propagator id dropped_send).2.countP is_success_record = 0 ∧
     (sample_icr.trace_request id_propagator id dropped_send).2.countP is_error_record = 0) :=
  ⟨rfl, C9_cancellation_never_ends sample_icr id_propagator id dropped_send rfl⟩

/-- Witness for claim C8: the `send` and `send_body` closures of the
concrete client agree on the injected request, so the two variants
produce identical results and event traces. -/
theorem C8_variants_shared_lifecycle_witness :
    (fun request => sample_client.send request) (injected_request sample_icr id_propagator) =
      (fun request => sample_client.send_body request ())
        (injected_request sample_icr id_propagator) ∧
    sample_icr.trace_request id_propagator id (fun request => sample_client.send request) =
      sample_icr.trace_request id_propagator id
        (fun request => sample_client.send_body request ()) :=
  ⟨rfl,
   (C8_variants_shared_lifecycle sample_icr sample_client id_propagator id () () () ()
      (fun request => sample_client.send request)
      (fun request => sample_client.send_body request ()) rfl).2.2.2.2.2⟩

/-- Witness for claim C7: a concrete valid key/value pair is written,
overwriting the existing `traceparent` header. -/
theorem C7_carrier_set_witness :
    HeaderName.from_str "TraceParent" = some "traceparent" ∧
    HeaderValue.from_str "00-abc" = some "00-abc" ∧
    ActixClientCarrier.set [("traceparent", "old")] "TraceParent" "00-abc" =
      Except.ok (HeaderMap.insert [("traceparent", "old")] "traceparent" "00-abc") ∧
    ("traceparent", "00-abc") ∈
      HeaderMap.insert [("traceparent", "old")] "traceparent" "00-abc" :=
  ⟨by decide, by decide,
   ((C7_carrier_set [("traceparent", "old")] "TraceParent" "00-abc").1 "traceparent" "00-abc"
      (by decide) (by decide)).2.1,
   ((C7_carrier_set [("traceparent", "old")] "TraceParent" "00-abc").1 "traceparent" "00-abc"
      (by decide) (by decide)).2.2.1⟩
